import Mathlib

set_option maxRecDepth 100000

/-!
Shallow embedding of `src/spark_eventlog_analyze.py`.

The script streams a Spark event log (JSON lines) and computes a per-SQL-execution
breakdown.  We embed the pipeline at the level of parsed events: JSON-shape
tolerance (the `_g` key-variant lookup, `_as_int` coercions, the two shapes of
`JobStart.Properties` handled by `_norm_properties`, and the several shapes
accepted by `_success_from_task_end`) is resolved at the event boundary, so an
event carries the already-extracted field values, with `Option` for a missing or
unparseable field.  Python floats are modelled as `ℚ` (the divisions appearing in
the claims are exact in binary floating point); Python ints as `ℤ`; Python dicts
as insertion-ordered association lists whose update keeps the position of an
existing key, exactly as a Python `dict` does.
-/

/-- Parsed form of a `SparkListenerTaskEnd` event: the fields the script reads
from `Task Info` and `Task Metrics` (lines 194-243 of the source).  A metric the
log does not carry is 0, matching the `default=0` of `_as_int`; `success` is the
value `_success_from_task_end` computes for the event. -/
structure TaskEndEv where
  stageId : Option Int := none
  taskId : Option Int := none
  launch : Option Int := none
  finish : Option Int := none
  executorRunTime : Int := 0
  executorCpuTime : Int := 0
  executorDeserializeTime : Int := 0
  resultSerializationTime : Int := 0
  jvmGcTime : Int := 0
  fetchWaitTime : Int := 0
  remoteBytesRead : Int := 0
  localBytesRead : Int := 0
  writeTimeNs : Int := 0
  shuffleBytesWritten : Int := 0
  bytesRead : Int := 0
  bytesWritten : Int := 0
  success : Bool := true
deriving DecidableEq, Repr

/-- Parsed form of one line of an event log.  `skip` stands for a blank line, a
line that is not valid JSON, an event without an `Event` field, or an event type
the script ignores (all of these hit a `continue` in the source). -/
inductive Ev where
  | sqlStart (executionId : Option Int) (description : Option String)
      (details : Option String) (time : Option Int)
  | sqlEnd (executionId : Option Int) (time : Option Int)
  | jobStart (jobId : Option Int) (stageIds : List Int)
      (properties : List (String × String))
  | taskEnd (te : TaskEndEv)
  | skip
deriving DecidableEq, Repr

/-- The `t_rec` dict built for a task at lines 245-263 of the source. -/
structure TaskRec where
  stageId : Int
  taskId : Option Int
  launch : Option Int
  finish : Option Int
  duration_ms : Int
  run_ms : Int
  cpu_ms : ℚ
  deserialize_ms : Int
  result_serialize_ms : Int
  gc_ms : Int
  shuffle_fetch_wait_ms : Int
  shuffle_write_time_ms : ℚ
  shuffle_read_bytes : Int
  shuffle_write_bytes : Int
  input_bytes : Int
  output_bytes : Int
  success : Bool
deriving DecidableEq, Repr

/-- The per-execution info dict (`exec_info[exid]`): a field is `none` while the
corresponding key has not been assigned. -/
structure ExecInfo where
  description : Option String := none
  details : Option String := none
  startTime : Option Int := none
  endTime : Option Int := none
deriving DecidableEq, Repr

/-- Lookup in an association list (Python `d.get(k)`). -/
def getAssoc {κ α : Type} [DecidableEq κ] : List (κ × α) → κ → Option α
  | [], _ => none
  | (k', v) :: rest, k => if k = k' then some v else getAssoc rest k

/-- Update of an association list (Python `d[k] = v`): an existing key keeps its
position, a new key is appended, as in a Python `dict`. -/
def updAssoc {κ α : Type} [DecidableEq κ] : List (κ × α) → κ → α → List (κ × α)
  | [], k, v => [(k, v)]
  | (k', v') :: rest, k, v =>
      if k = k' then (k, v) :: rest else (k', v') :: updAssoc rest k v

/-- Python `set.add` on a set modelled as a duplicate-free list. -/
def addJob (jobs : List Int) (j : Int) : List Int :=
  if j ∈ jobs then jobs else jobs ++ [j]

/-- The correlation state built while streaming (lines 120-125 of the source). -/
structure AnalyzeState where
  exec_info : List (Int × ExecInfo) := []
  exec_jobs : List (Int × List Int) := []
  job_exec : List (Int × Int) := []
  stage_job : List (Int × Int) := []
  tasks_by_key : List ((Int × Option Int) × TaskRec) := []
deriving DecidableEq, Repr

def initState : AnalyzeState := {}

/-- Python helper `_ms_from_ns`: nanoseconds to milliseconds (`float(ns) / 1e6`). -/
def ms_from_ns (ns : Int) : ℚ := (ns : ℚ) / 1000000

/-- The `t_rec` built at lines 204-263 for a `TaskEnd` event whose stage id
parsed to `sid`. -/
def mkTaskRec (sid : Int) (te : TaskEndEv) : TaskRec :=
  { stageId := sid
    taskId := te.taskId
    launch := te.launch
    finish := te.finish
    duration_ms :=
      match te.launch, te.finish with
      | some l, some f => max 0 (f - l)
      | _, _ => te.executorRunTime
    run_ms := te.executorRunTime
    cpu_ms := (te.executorCpuTime : ℚ) / 1000000
    deserialize_ms := te.executorDeserializeTime
    result_serialize_ms := te.resultSerializationTime
    gc_ms := te.jvmGcTime
    shuffle_fetch_wait_ms := te.fetchWaitTime
    shuffle_write_time_ms := ms_from_ns te.writeTimeNs
    shuffle_read_bytes := te.remoteBytesRead + te.localBytesRead
    shuffle_write_bytes := te.shuffleBytesWritten
    input_bytes := te.bytesRead
    output_bytes := te.bytesWritten
    success := te.success }

/-- The Task Store update at lines 265-267:
`if prev is None or (not prev.get("success") and success): tasks_by_key[key] = t_rec`. -/
def updateTaskStore (m : List ((Int × Option Int) × TaskRec))
    (key : Int × Option Int) (rec : TaskRec) : List ((Int × Option Int) × TaskRec) :=
  match getAssoc m key with
  | none => updAssoc m key rec
  | some prev => if prev.success = false ∧ rec.success = true then updAssoc m key rec else m

/-- One step of the streaming loop (lines 138-267): dispatch on the event type
and update the correlation state. -/
def step (st : AnalyzeState) : Ev → AnalyzeState
  | Ev.sqlStart exid? d dtl t =>
      match exid? with
      | none => st
      | some exid =>
          let info := (getAssoc st.exec_info exid).getD {}
          let info :=
            { info with
                description := some ((d.getD "").trim)
                details := some (dtl.getD "")
                startTime := match t with | some v => some v | none => info.startTime }
          { st with exec_info := updAssoc st.exec_info exid info }
  | Ev.sqlEnd exid? t =>
      match exid? with
      | none => st
      | some exid =>
          let info := (getAssoc st.exec_info exid).getD {}
          let info :=
            { info with
                endTime := match t with | some v => some v | none => info.endTime }
          { st with exec_info := updAssoc st.exec_info exid info }
  | Ev.jobStart jobId? stageIds props =>
      match jobId? with
      | none => st
      | some jobId =>
          let st :=
            match getAssoc props "spark.sql.execution.id" with
            | none => st
            | some s =>
                match s.toInt? with
                | none => st
                | some exid =>
                    { st with
                        job_exec := updAssoc st.job_exec jobId exid
                        exec_jobs := updAssoc st.exec_jobs exid
                          (addJob ((getAssoc st.exec_jobs exid).getD []) jobId) }
          { st with stage_job := stageIds.foldl (fun m sid => updAssoc m sid jobId) st.stage_job }
  | Ev.taskEnd te =>
      match te.stageId with
      | none => st
      | some sid =>
          { st with
              tasks_by_key := updateTaskStore st.tasks_by_key (sid, te.taskId) (mkTaskRec sid te) }
  | Ev.skip => st

/-- Streaming over the lines of one source. -/
def processEvents (evs : List Ev) (st : AnalyzeState) : AnalyzeState :=
  evs.foldl step st

/-- Streaming over several sources through one correlation state (lines 128-129:
the maps are initialised once, before the `for path in paths` loop). -/
def processPaths (paths : List (List Ev)) : AnalyzeState :=
  paths.foldl (fun s evs => processEvents evs s) initState

/-- Attribution (lines 270-280): each deduplicated task is routed
stage → job → execution; a task whose stage or job is unmapped is dropped.
Groups appear in first-contribution order, values in task order, as with a
Python `defaultdict(list)`. -/
def addToGroup : List (Int × List TaskRec) → Int → TaskRec → List (Int × List TaskRec)
  | [], exid, t => [(exid, [t])]
  | (e, ts) :: rest, exid, t =>
      if exid = e then (e, ts ++ [t]) :: rest else (e, ts) :: addToGroup rest exid t

def attributeTasks (st : AnalyzeState) : List (Int × List TaskRec) :=
  (st.tasks_by_key.map (fun kv => kv.2)).foldl
    (fun g t =>
      match getAssoc st.stage_job t.stageId with
      | none => g
      | some jobId =>
          match getAssoc st.job_exec jobId with
          | none => g
          | some exid => addToGroup g exid t)
    []

/-- Python `min(gen, default=None)` over the generator's elements. -/
def pyMin (xs : List Int) : Option Int :=
  xs.foldl (fun acc x => match acc with | none => some x | some m => some (min m x)) none

/-- Python `max(gen, default=None)` over the generator's elements. -/
def pyMax (xs : List Int) : Option Int :=
  xs.foldl (fun acc x => match acc with | none => some x | some m => some (max m x)) none

/-- One output row (the dict appended at lines 314-333). -/
structure Row where
  executionId : Int
  description : String
  num_jobs : Nat
  num_tasks : Nat
  makespan_ms : Option Int
  task_slot_ms : Int
  executor_run_ms : Int
  executor_cpu_ms : ℚ
  cpu_vs_wall_pct : Option ℚ
  deserialize_ms : Int
  result_serialize_ms : Int
  gc_ms : Int
  shuffle_fetch_wait_ms : Int
  shuffle_write_time_ms : ℚ
  input_bytes : Int
  output_bytes : Int
  shuffle_read_bytes : Int
  shuffle_write_bytes : Int
deriving DecidableEq, Repr

/-- Aggregation of one execution group (lines 284-333).  `run_ms and run_ms > 0`
is Python truthiness on an int followed by the comparison, hence the conjunction
`run_ms ≠ 0 ∧ run_ms > 0`. -/
def aggregateExec (st : AnalyzeState) (exid : Int) (ts : List TaskRec) : Row :=
  let wall_start := pyMin (ts.filterMap (fun t => t.launch))
  let wall_end := pyMax (ts.filterMap (fun t => t.finish))
  let makespan_ms :=
    match wall_start, wall_end with
    | some s, some e => some (e - s)
    | _, _ => none
  let run_ms : Int := (ts.map (fun t => t.run_ms)).sum
  let cpu_ms : ℚ := (ts.map (fun t => t.cpu_ms)).sum
  let cpu_vs_wall_pct : Option ℚ :=
    if run_ms ≠ 0 ∧ run_ms > 0 then some ((cpu_ms / (run_ms : ℚ)) * 100) else none
  let info := (getAssoc st.exec_info exid).getD {}
  { executionId := exid
    description := (info.description.getD "").trim
    num_jobs := ((getAssoc st.exec_jobs exid).getD []).length
    num_tasks := ts.length
    makespan_ms := makespan_ms
    task_slot_ms := (ts.map (fun t => t.duration_ms)).sum
    executor_run_ms := run_ms
    executor_cpu_ms := cpu_ms
    cpu_vs_wall_pct := cpu_vs_wall_pct
    deserialize_ms := (ts.map (fun t => t.deserialize_ms)).sum
    result_serialize_ms := (ts.map (fun t => t.result_serialize_ms)).sum
    gc_ms := (ts.map (fun t => t.gc_ms)).sum
    shuffle_fetch_wait_ms := (ts.map (fun t => t.shuffle_fetch_wait_ms)).sum
    shuffle_write_time_ms := (ts.map (fun t => t.shuffle_write_time_ms)).sum
    input_bytes := (ts.map (fun t => t.input_bytes)).sum
    output_bytes := (ts.map (fun t => t.output_bytes)).sum
    shuffle_read_bytes := (ts.map (fun t => t.shuffle_read_bytes)).sum
    shuffle_write_bytes := (ts.map (fun t => t.shuffle_write_bytes)).sum }

/-- The sort key of line 335, `r.get("executionId") or -1`: every produced row
carries an integer `executionId`, and Python `or` sends the falsy value 0 (as it
would send a missing id) to -1. -/
def sortKey (r : Row) : Int :=
  if r.executionId = 0 then -1 else r.executionId

/-- Row comparison used by the final stable sort. -/
def rowLe (a b : Row) : Prop := sortKey a ≤ sortKey b

instance : DecidableRel rowLe := fun a b => by unfold rowLe; infer_instance

/-- The whole analysis (lines 115-336): stream, attribute, aggregate, sort.
`List.insertionSort` is a stable sort, as Python's `list.sort` is. -/
def analyze_sql_breakdown (paths : List (List Ev)) : List Row :=
  let st := processPaths paths
  let groups := attributeTasks st
  let results := (groups.filter (fun g => !g.2.isEmpty)).map (fun g => aggregateExec st g.1 g.2)
  List.insertionSort rowLe results

/-- Written from the claim's words, not from the source, for comparison with the
code's aggregation: `max(finish) − min(launch)` taken over the tasks that have
BOTH timestamps present, `none` when no task has both. -/
def claimMakespan (ts : List TaskRec) : Option Int :=
  let both := ts.filter (fun t => t.launch.isSome && t.finish.isSome)
  match (both.filterMap (fun t => t.finish)).max?, (both.filterMap (fun t => t.launch)).min? with
  | some e, some s => some (e - s)
  | _, _ => none

/-- Message printed to stderr when no rows were produced (lines 373-374). -/
def noSqlMsg : String :=
  "No SQL executions found (or no mappable tasks). Make sure the log contains SQL events and JobStart with spark.sql.execution.id."

/-- Observable outcome of `main` (lines 365-384): the process exit status and the
lines written to stderr.  `sys.exit(main())` turns the `return 2` of the empty
case into exit status 2, and the implicit `return None` of the success path into
exit status 0. -/
structure MainResult where
  exitCode : Nat
  stderrLines : List String
deriving DecidableEq, Repr

def mainRun (paths : List (List Ev)) : MainResult :=
  let rows := analyze_sql_breakdown paths
  if rows.isEmpty then { exitCode := 2, stderrLines := [noSqlMsg] }
  else { exitCode := 0, stderrLines := [] }

/-- Holds when no `SQLExecutionStart` event for `exid` occurs. -/
def isSqlStartFor (exid : Int) : Ev → Bool
  | Ev.sqlStart e _ _ _ => e == some exid
  | _ => false

/-- Holds when the final `exec_info` has no description recorded for `exid`
(either no entry at all, or an entry created by `SQLExecutionEnd` alone). -/
def descUnset (st : AnalyzeState) (exid : Int) : Bool :=
  match getAssoc st.exec_info exid with
  | none => true
  | some info => info.description.isNone

instance : IsTotal Row rowLe :=
  ⟨fun a b => le_total (sortKey a) (sortKey b)⟩

instance : IsTrans Row rowLe :=
  ⟨fun _ _ _ hab hbc => le_trans hab hbc⟩

/-- Input of claim C4: a job-start tying job 5 (stage 1) to execution 7, the
execution-start for 7, and one successful task-end on stage 1. -/
def evsC4 : List Ev :=
  [ Ev.jobStart (some 5) [1] [("spark.sql.execution.id", "7")]
  , Ev.sqlStart (some 7) (some "benchmark q1-v2.4") none none
  , Ev.taskEnd { stageId := some 1, taskId := some 0, launch := some 1000, finish := some 1500,
                 executorRunTime := 400, executorCpuTime := 300000000 } ]

/-- Input refuting claim C1: in execution 3, task 0 has only a launch timestamp
(10) and task 1 has both (launch 50, finish 200). -/
def evsC1cex : List Ev :=
  [ Ev.jobStart (some 1) [1] [("spark.sql.execution.id", "3")]
  , Ev.taskEnd { stageId := some 1, taskId := some 0, launch := some 10, finish := none }
  , Ev.taskEnd { stageId := some 1, taskId := some 1, launch := some 50, finish := some 200 } ]

/-- Input refuting claim C2: two unsuccessful task-end records for the same key
`(1, 0)`, distinguished by their `executorRunTime` (1 then 2). -/
def evsC2cex : List Ev :=
  [ Ev.taskEnd { stageId := some 1, taskId := some 0, executorRunTime := 1, success := false }
  , Ev.taskEnd { stageId := some 1, taskId := some 0, executorRunTime := 2, success := false } ]

/-- Input refuting claim C3: execution ids 0 and -1, with execution 0 first in
task order; the sort key sends both 0 (falsy) and -1 to -1. -/
def evsC3cex : List Ev :=
  [ Ev.jobStart (some 1) [1] [("spark.sql.execution.id", "0")]
  , Ev.jobStart (some 2) [2] [("spark.sql.execution.id", "-1")]
  , Ev.taskEnd { stageId := some 1, taskId := some 0, launch := some 0, finish := some 5 }
  , Ev.taskEnd { stageId := some 2, taskId := some 0, launch := some 0, finish := some 5 } ]

/-- Input refuting claim C5: one task with `executorRunTime = -1`, so the
execution's summed run time is -1 (non-zero) yet the guard yields `none`. -/
def evsC5cex : List Ev :=
  [ Ev.jobStart (some 1) [1] [("spark.sql.execution.id", "4")]
  , Ev.taskEnd { stageId := some 1, taskId := some 0, launch := some 0, finish := some 10,
                 executorRunTime := -1, executorCpuTime := 5000000 } ]

/-- A minimal input producing one output row (used to exercise the success exit
path of `main`). -/
def evsC8ok : List Ev :=
  [ Ev.jobStart (some 1) [1] [("spark.sql.execution.id", "2")]
  , Ev.taskEnd { stageId := some 1, taskId := some 0, launch := some 0, finish := some 5 } ]

/-- Input of the C10 witness: execution 7 acquires a task through the job-start
mapping but no execution-start event for 7 ever occurs. -/
def evsC10w : List Ev :=
  [ Ev.jobStart (some 5) [1] [("spark.sql.execution.id", "7")]
  , Ev.taskEnd { stageId := some 1, taskId := some 0, launch := some 10, finish := some 20 } ]

/-- A successful task record at key `(1, 0)` (C9 witness). -/
def recC9stored : TaskRec := mkTaskRec 1 { stageId := some 1, taskId := some 0 }

/-- A later, unsuccessful task-end for the same key (C9 witness). -/
def teC9late : TaskEndEv := { stageId := some 1, taskId := some 0, executorRunTime := 9, success := false }

/-- An unsuccessful then a successful record for one key (C2 witness). -/
def recC2fail : TaskRec := mkTaskRec 1 { stageId := some 1, taskId := some 0, success := false }

def recC2ok : TaskRec := mkTaskRec 1 { stageId := some 1, taskId := some 0, executorRunTime := 3 }

section AssocLemmas

variable {κ α : Type} [DecidableEq κ]

theorem getAssoc_updAssoc_self (m : List (κ × α)) (k : κ) (v : α) :
    getAssoc (updAssoc m k v) k = some v := by
  induction m with
  | nil => simp [updAssoc, getAssoc]
  | cons hd tl ih =>
      obtain ⟨k', v'⟩ := hd
      by_cases h : k = k' <;> simp [updAssoc, getAssoc, h, ih]

theorem getAssoc_updAssoc_ne (m : List (κ × α)) {k k' : κ} (v : α) (h : k ≠ k') :
    getAssoc (updAssoc m k' v) k = getAssoc m k := by
  induction m with
  | nil => simp [updAssoc, getAssoc, h]
  | cons hd tl ih =>
      obtain ⟨k'', v''⟩ := hd
      by_cases h1 : k' = k'' <;> by_cases h2 : k = k'' <;>
        simp_all [updAssoc, getAssoc]

end AssocLemmas

theorem pyMin_aux (l : List Int) (m : Int) :
    l.foldl (fun acc x => match acc with | none => some x | some m => some (min m x)) (some m)
      = some (l.foldl min m) := by
  induction l generalizing m with
  | nil => rfl
  | cons x xs ih => simp [List.foldl, ih]

/-- Function `pyMin` agrees with `List.min?`. -/
theorem pyMin_eq_min? (l : List Int) : pyMin l = l.min? := by
  cases l with
  | nil => rfl
  | cons x xs => simp [pyMin, List.min?, List.foldl, pyMin_aux]

theorem pyMax_aux (l : List Int) (m : Int) :
    l.foldl (fun acc x => match acc with | none => some x | some m => some (max m x)) (some m)
      = some (l.foldl max m) := by
  induction l generalizing m with
  | nil => rfl
  | cons x xs ih => simp [List.foldl, ih]

/-- Function `pyMax` agrees with `List.max?`. -/
theorem pyMax_eq_max? (l : List Int) : pyMax l = l.max? := by
  cases l with
  | nil => rfl
  | cons x xs => simp [pyMax, List.max?, List.foldl, pyMax_aux]

theorem processPaths_append_aux (paths : List (List Ev)) (st : AnalyzeState) :
    paths.foldl (fun s evs => List.foldl step s evs) st = (paths.flatten).foldl step st := by
  induction paths generalizing st with
  | nil => rfl
  | cons p ps ih =>
      simp only [List.foldl_cons, List.flatten_cons, List.foldl_append]
      exact ih _

/-- The streaming state over a list of sources equals the state over the single
source made of all their lines. -/
theorem processPaths_join (paths : List (List Ev)) :
    processPaths paths = processPaths [paths.flatten] := by
  simp only [processPaths, processEvents, processPaths_append_aux]
  simp

/-- C6: for every list of input sources split into two consecutive sublists,
processing the two sublists sequentially through one correlation context yields
exactly the same aggregate rows as processing the line-concatenation of all the
sources as a single source. -/
theorem analyze_concat_sources (A B : List (List Ev)) :
    analyze_sql_breakdown (A ++ B) = analyze_sql_breakdown [(A ++ B).flatten] := by
  unfold analyze_sql_breakdown
  rw [processPaths_join (A ++ B)]

theorem updateTaskStore_lookup (m : List ((Int × Option Int) × TaskRec))
    (key : Int × Option Int) (rec s : TaskRec) (h : getAssoc m key = some s) :
    getAssoc (updateTaskStore m key rec) key =
      if s.success = false ∧ rec.success = true then some rec else some s := by
  unfold updateTaskStore
  rw [h]
  by_cases hc : s.success = false ∧ rec.success = true
  · simp [hc, getAssoc_updAssoc_self]
  · simp [hc, h]

theorem updateTaskStore_other (m : List ((Int × Option Int) × TaskRec))
    (key key' : Int × Option Int) (rec : TaskRec) (h : key ≠ key') :
    getAssoc (updateTaskStore m key' rec) key = getAssoc m key := by
  unfold updateTaskStore
  cases getAssoc m key' with
  | none => exact getAssoc_updAssoc_ne m rec h
  | some prev =>
      by_cases hc : prev.success = false ∧ rec.success = true
      · simp [hc, getAssoc_updAssoc_ne m rec h]
      · simp [hc]

theorem step_keeps_success (st : AnalyzeState) (ev : Ev) (key : Int × Option Int)
    (s : TaskRec) (hs : getAssoc st.tasks_by_key key = some s) (hsucc : s.success = true) :
    getAssoc (step st ev).tasks_by_key key = some s := by
  cases ev with
  | sqlStart e d dl t => cases e <;> simpa [step] using hs
  | sqlEnd e t => cases e <;> simpa [step] using hs
  | jobStart j sids props =>
      cases j with
      | none => simpa [step] using hs
      | some jobId =>
          simp only [step]
          cases getAssoc props "spark.sql.execution.id" with
          | none => simpa using hs
          | some s' =>
              cases htoi : s'.toInt? with
              | none => simpa [htoi] using hs
              | some exid => simpa [htoi] using hs
  | taskEnd te =>
      cases hsid : te.stageId with
      | none => simpa [step, hsid] using hs
      | some sid =>
          simp only [step, hsid]
          by_cases hk : key = (sid, te.taskId)
          · subst hk
            rw [updateTaskStore_lookup _ _ _ _ hs]
            simp [hsucc]
          · rw [updateTaskStore_other _ _ _ _ hk]
            exact hs
  | skip => simpa [step] using hs

theorem processEvents_keeps_success (evs : List Ev) (st : AnalyzeState)
    (key : Int × Option Int) (s : TaskRec)
    (hs : getAssoc st.tasks_by_key key = some s) (hsucc : s.success = true) :
    getAssoc (processEvents evs st).tasks_by_key key = some s := by
  induction evs generalizing st with
  | nil => exact hs
  | cons ev evs ih =>
      exact ih (step st ev) (step_keeps_success st ev key s hs hsucc)

theorem step_keeps_descUnset (st : AnalyzeState) (ev : Ev) (exid : Int)
    (hno : isSqlStartFor exid ev = false) (h : descUnset st exid = true) :
    descUnset (step st ev) exid = true := by
  cases ev with
  | sqlStart e d dl t =>
      cases e with
      | none => simpa [step] using h
      | some e' =>
          have hne : exid ≠ e' := by
            simp [isSqlStartFor] at hno
            exact fun hEq => hno hEq.symm
          simpa [step, descUnset, getAssoc_updAssoc_ne _ _ hne] using h
  | sqlEnd e t =>
      cases e with
      | none => simpa [step] using h
      | some e' =>
          by_cases he : exid = e'
          · subst he
            cases hlook : getAssoc st.exec_info exid with
            | none => simp [step, descUnset, hlook, getAssoc_updAssoc_self]
            | some i =>
                simp only [descUnset, hlook] at h
                simp [step, descUnset, hlook, getAssoc_updAssoc_self, h]
          · simpa [step, descUnset, getAssoc_updAssoc_ne _ _ he] using h
  | jobStart j sids props =>
      cases j with
      | none => simpa [step] using h
      | some jobId =>
          simp only [step]
          cases getAssoc props "spark.sql.execution.id" with
          | none => simpa [descUnset] using h
          | some s' =>
              cases htoi : s'.toInt? with
              | none => simpa [htoi, descUnset] using h
              | some e' => simpa [htoi, descUnset] using h
  | taskEnd te =>
      cases hsid : te.stageId with
      | none => simpa [step, hsid] using h
      | some sid => simpa [step, hsid, descUnset] using h
  | skip => simpa [step] using h

theorem processEvents_keeps_descUnset (evs : List Ev) (st : AnalyzeState) (exid : Int)
    (hno : ∀ ev ∈ evs, isSqlStartFor exid ev = false) (h : descUnset st exid = true) :
    descUnset (processEvents evs st) exid = true := by
  induction evs generalizing st with
  | nil => exact h
  | cons ev evs ih =>
      exact ih (step st ev) (fun e he => hno e (List.mem_cons_of_mem _ he))
        (step_keeps_descUnset st ev exid (hno ev (List.mem_cons_self _ _)) h)

theorem processPaths_keeps_descUnset (paths : List (List Ev)) (exid : Int)
    (hno : ∀ evs ∈ paths, ∀ ev ∈ evs, isSqlStartFor exid ev = false) :
    descUnset (processPaths paths) exid = true := by
  have haux : ∀ (ps : List (List Ev)) (st : AnalyzeState),
      (∀ evs ∈ ps, ∀ ev ∈ evs, isSqlStartFor exid ev = false) →
      descUnset st exid = true →
      descUnset (ps.foldl (fun s evs => processEvents evs s) st) exid = true := by
    intro ps
    induction ps with
    | nil => intro st _ h; exact h
    | cons p ps ih =>
        intro st hno' h
        exact ih (processEvents p st)
          (fun evs he => hno' evs (List.mem_cons_of_mem _ he))
          (processEvents_keeps_descUnset p st exid (hno' p (List.mem_cons_self _ _)) h)
  exact haux paths initState hno rfl

theorem trim_empty : "".trim = "" := by with_unfolding_all decide

theorem aggregateExec_executionId (st : AnalyzeState) (exid : Int) (ts : List TaskRec) :
    (aggregateExec st exid ts).executionId = exid := rfl

theorem aggregateExec_description_unset (st : AnalyzeState) (exid : Int) (ts : List TaskRec)
    (h : descUnset st exid = true) : (aggregateExec st exid ts).description = "" := by
  unfold aggregateExec
  cases hlook : getAssoc st.exec_info exid with
  | none => simp [hlook, trim_empty]
  | some i =>
      simp only [descUnset, hlook, Option.isNone_iff_eq_none] at h
      simp [hlook, h, trim_empty]

/-- C1 (as amended): for every execution group, `makespan_ms` equals the maximum
finish over the tasks that have a finish timestamp minus the minimum launch over
the tasks that have a launch timestamp — the two extrema range over possibly
different tasks — and is null exactly when no task has a finish or no task has
a launch. -/
theorem makespan_separate_extrema (st : AnalyzeState) (exid : Int) (ts : List TaskRec) :
    (aggregateExec st exid ts).makespan_ms =
      match (ts.filterMap (fun t => t.finish)).max?, (ts.filterMap (fun t => t.launch)).min? with
      | some e, some s => some (e - s)
      | _, _ => none := by
  unfold aggregateExec
  simp only [pyMin_eq_min?, pyMax_eq_max?]
  cases hmin : (ts.filterMap fun t => t.launch).min? <;>
    cases hmax : (ts.filterMap fun t => t.finish).max? <;> simp

/-- C1 fails as stated: on `evsC1cex` the group of execution 3 holds a task with
only a launch (10) and a task with both timestamps (50, 200); the code reports
makespan 200 − 10 = 190, while the claim's "over tasks with both timestamps
present" value is 200 − 50 = 150. -/
theorem makespan_claim_cex :
    ((analyze_sql_breakdown [evsC1cex]).map (fun r => r.makespan_ms) = [some 190])
    ∧ ((attributeTasks (processPaths [evsC1cex])).map (fun g => claimMakespan g.2)
        = [some 150])
    ∧ (some (190 : Int) ≠ some (150 : Int)) := by
  with_unfolding_all decide

/-- C2 fails as stated: two unsuccessful records for the key `(1, 0)` arrive in
order run=1 then run=2; the store retains the EARLIER record (run=1), not the
later one the claim names, and the two records differ. -/
theorem taskstore_both_failed_cex :
    (getAssoc (processEvents evsC2cex initState).tasks_by_key (1, some 0)
      = some (mkTaskRec 1
          { stageId := some 1, taskId := some 0, executorRunTime := 1, success := false }))
    ∧ (mkTaskRec 1 { stageId := some 1, taskId := some 0, executorRunTime := 1, success := false }
        ≠ mkTaskRec 1
            { stageId := some 1, taskId := some 0, executorRunTime := 2, success := false }) := by
  with_unfolding_all decide

/-- C2 (as amended): for two task-end records sharing a fresh key, processed in
arrival order `r1` then `r2`, the store retains `r2` exactly when `r1` failed
and `r2` succeeded; in every other case — including both records failing — the
earlier-arriving `r1` is retained.  A successful record is thus retained
whenever at least one of the two is successful. -/
theorem taskstore_pair_resolution (m : List ((Int × Option Int) × TaskRec))
    (key : Int × Option Int) (r1 r2 : TaskRec) (h : getAssoc m key = none) :
    getAssoc (updateTaskStore (updateTaskStore m key r1) key r2) key =
      some (if r1.success = false ∧ r2.success = true then r2 else r1) := by
  have h1 : getAssoc (updateTaskStore m key r1) key = some r1 := by
    unfold updateTaskStore
    rw [h]
    exact getAssoc_updAssoc_self m key r1
  rw [updateTaskStore_lookup _ _ _ _ h1]
  by_cases hc : r1.success = false ∧ r2.success = true <;> simp [hc]

theorem taskstore_pair_resolution_witness :
    getAssoc (updateTaskStore (updateTaskStore [] ((1 : Int), some (0 : Int)) recC2fail)
        ((1 : Int), some (0 : Int)) recC2ok) ((1 : Int), some (0 : Int)) = some recC2ok := by
  have h := taskstore_pair_resolution [] ((1 : Int), some (0 : Int)) recC2fail recC2ok rfl
  simpa [recC2fail, recC2ok, mkTaskRec] using h

/-- C3 fails as stated: on `evsC3cex` the rows come out in executionId order
[0, -1] — not ascending — because the sort key `r.get("executionId") or -1`
sends the falsy id 0 to -1, tying it with the id -1, and the stable sort keeps
insertion order. -/
theorem rows_not_ascending_cex :
    ((analyze_sql_breakdown [evsC3cex]).map (fun r => r.executionId) = [0, -1])
    ∧ ¬ ((0 : Int) ≤ -1) := by
  with_unfolding_all decide

/-- C3 (as amended): the output rows are sorted ascending by the key
`executionId or -1` (which maps the falsy id 0 — as it would map a missing id —
to -1), ties resolved stably; every produced row carries an execution id, so no
row is "lacking" one. -/
theorem rows_sorted_by_sortKey (paths : List (List Ev)) :
    List.Pairwise rowLe (analyze_sql_breakdown paths) := by
  unfold analyze_sql_breakdown
  exact List.sorted_insertionSort rowLe _

/-- C4: on exactly the claim's three events, the analysis produces a single row
for execution 7 with num_jobs 1, num_tasks 1, makespan 500 ms, task-slot 500 ms,
executor run 400 ms, executor CPU 300.0 ms and CPU-vs-wall 75.0 %. -/
theorem single_row_breakdown :
    ((analyze_sql_breakdown [evsC4]).map (fun r =>
        (r.executionId, r.num_jobs, r.num_tasks, r.makespan_ms))
      = [((7 : Int), 1, 1, some (500 : Int))])
    ∧ ((analyze_sql_breakdown [evsC4]).map (fun r =>
        (r.task_slot_ms, r.executor_run_ms, r.executor_cpu_ms, r.cpu_vs_wall_pct))
      = [((500 : Int), (400 : Int), (300 : ℚ), some (75 : ℚ))]) := by
  with_unfolding_all decide

/-- C5 fails as stated: on `evsC5cex` the execution's summed run time is -1 —
non-zero, so the claim's "otherwise" clause demands `100 × 5 / (-1)` — yet the
code's `run_ms > 0` guard yields null. -/
theorem cpu_pct_negative_run_cex :
    ((analyze_sql_breakdown [evsC5cex]).map (fun r => (r.executor_run_ms, r.cpu_vs_wall_pct))
      = [((-1 : Int), (none : Option ℚ))])
    ∧ ((-1 : Int) ≠ 0)
    ∧ ((none : Option ℚ) ≠ some (100 * (5 : ℚ) / (-1 : ℚ))) := by
  with_unfolding_all decide

/-- C5 (as amended): `cpu_vs_wall_pct` equals `100 × executor_cpu_ms /
executor_run_ms` when the summed run time is positive, and is null (never 0)
when it is not positive — in particular when it is 0, so the division is never
performed with a non-positive divisor. -/
theorem cpu_pct_positive_guard (st : AnalyzeState) (exid : Int) (ts : List TaskRec) :
    (aggregateExec st exid ts).cpu_vs_wall_pct =
      if 0 < (aggregateExec st exid ts).executor_run_ms
      then some (100 * (aggregateExec st exid ts).executor_cpu_ms /
          ((aggregateExec st exid ts).executor_run_ms : ℚ))
      else none := by
  have hrun : (aggregateExec st exid ts).executor_run_ms = (ts.map (fun t => t.run_ms)).sum := rfl
  have hcpu : (aggregateExec st exid ts).executor_cpu_ms = (ts.map (fun t => t.cpu_ms)).sum := rfl
  have hpct : (aggregateExec st exid ts).cpu_vs_wall_pct =
      if (ts.map (fun t => t.run_ms)).sum ≠ 0 ∧ (ts.map (fun t => t.run_ms)).sum > 0
      then some (((ts.map (fun t => t.cpu_ms)).sum / (((ts.map (fun t => t.run_ms)).sum : Int) : ℚ)) * 100)
      else none := rfl
  rw [hrun, hcpu, hpct]
  by_cases h : 0 < (ts.map (fun t => t.run_ms)).sum
  · rw [if_pos ⟨ne_of_gt h, h⟩, if_pos h]
    congr 1
    ring
  · rw [if_neg h, if_neg]
    intro hc
    exact h hc.2

/-- C7: a task-end record contributes exactly `executorCpuTime / 1,000,000` (ns
to ms) to its execution's `executor_cpu_ms`; in particular a task with
`executorCpuTime = 300,000,000` ns contributes exactly 300.0. -/
theorem cpu_contribution :
    (∀ (st : AnalyzeState) (exid sid : Int) (ts1 ts2 : List TaskRec) (te : TaskEndEv),
        (aggregateExec st exid (ts1 ++ mkTaskRec sid te :: ts2)).executor_cpu_ms =
          (aggregateExec st exid (ts1 ++ ts2)).executor_cpu_ms
            + (te.executorCpuTime : ℚ) / 1000000)
    ∧ (mkTaskRec 1 { executorCpuTime := 300000000 }).cpu_ms = 300 := by
  constructor
  · intro st exid sid ts1 ts2 te
    have h1 : ∀ l : List TaskRec, (aggregateExec st exid l).executor_cpu_ms
        = (l.map (fun t => t.cpu_ms)).sum := fun l => rfl
    rw [h1, h1]
    simp [mkTaskRec, List.map_append, List.sum_append]
    ring
  · norm_num [mkTaskRec]

/-- C8: `main` returns 2 (and prints the diagnostic to stderr) exactly when the
analysis yields zero rows, and exits 0 otherwise. -/
theorem main_exit_behavior (paths : List (List Ev)) :
    (analyze_sql_breakdown paths = [] →
      mainRun paths = { exitCode := 2, stderrLines := [noSqlMsg] })
    ∧ (analyze_sql_breakdown paths ≠ [] →
      mainRun paths = { exitCode := 0, stderrLines := [] }) := by
  constructor <;> intro h <;> simp [mainRun, List.isEmpty_iff, h]

theorem main_exit_behavior_witness :
    mainRun [] = { exitCode := 2, stderrLines := [noSqlMsg] }
    ∧ mainRun [evsC8ok] = { exitCode := 0, stderrLines := [] } :=
  ⟨(main_exit_behavior []).1 (by rfl),
   (main_exit_behavior [evsC8ok]).2 (by with_unfolding_all decide)⟩

/-- C9: the Task Store update never replaces a stored successful record — a
later record (successful or not) leaves it unchanged over any further stream of
events — and a stored record is replaced exactly when it is unsuccessful and the
incoming record is successful. -/
theorem success_record_sticky :
    (∀ (m : List ((Int × Option Int) × TaskRec)) (key : Int × Option Int) (rec s : TaskRec),
        getAssoc m key = some s →
        getAssoc (updateTaskStore m key rec) key =
          if s.success = false ∧ rec.success = true then some rec else some s)
    ∧ (∀ (evs : List Ev) (st : AnalyzeState) (key : Int × Option Int) (s : TaskRec),
        getAssoc st.tasks_by_key key = some s → s.success = true →
        getAssoc (processEvents evs st).tasks_by_key key = some s) :=
  ⟨updateTaskStore_lookup, processEvents_keeps_success⟩

theorem success_record_sticky_witness :
    (getAssoc (updateTaskStore [(((1 : Int), some (0 : Int)), recC9stored)]
        ((1 : Int), some (0 : Int)) (mkTaskRec 1 teC9late)) ((1 : Int), some (0 : Int))
      = some recC9stored)
    ∧ (getAssoc (processEvents [Ev.taskEnd teC9late]
        { initState with tasks_by_key := [(((1 : Int), some (0 : Int)), recC9stored)] }).tasks_by_key
        ((1 : Int), some (0 : Int)) = some recC9stored) := by
  constructor
  · have h := success_record_sticky.1 [(((1 : Int), some (0 : Int)), recC9stored)]
      ((1 : Int), some (0 : Int)) (mkTaskRec 1 teC9late) recC9stored (by rfl)
    simpa [recC9stored, teC9late, mkTaskRec] using h
  · exact success_record_sticky.2 [Ev.taskEnd teC9late] _ ((1 : Int), some (0 : Int))
      recC9stored (by rfl) (by rfl)

/-- C10: an execution id that acquires at least one attributable task through
the job-start mapping produces an output row even when no execution-start event
for that id was ever observed, and that row's description is the empty
string. -/
theorem row_without_sqlstart (paths : List (List Ev)) (exid : Int) (ts : List TaskRec)
    (hmem : (exid, ts) ∈ attributeTasks (processPaths paths))
    (hne : ts ≠ [])
    (hno : ∀ evs ∈ paths, ∀ ev ∈ evs, isSqlStartFor exid ev = false) :
    ∃ row ∈ analyze_sql_breakdown paths, row.executionId = exid ∧ row.description = "" := by
  refine ⟨aggregateExec (processPaths paths) exid ts, ?_, rfl, ?_⟩
  · show aggregateExec (processPaths paths) exid ts ∈
      List.insertionSort rowLe
        (((attributeTasks (processPaths paths)).filter (fun g => !g.2.isEmpty)).map
          (fun g => aggregateExec (processPaths paths) g.1 g.2))
    apply (List.perm_insertionSort rowLe _).mem_iff.mpr
    exact List.mem_map_of_mem _
      (List.mem_filter.mpr ⟨hmem, by simpa using hne⟩)
  · exact aggregateExec_description_unset _ _ _ (processPaths_keeps_descUnset paths exid hno)

theorem row_without_sqlstart_witness :
    ∃ row ∈ analyze_sql_breakdown [evsC10w], row.executionId = 7 ∧ row.description = "" :=
  row_without_sqlstart [evsC10w] 7
    [mkTaskRec 1 { stageId := some 1, taskId := some 0, launch := some 10, finish := some 20 }]
    (by with_unfolding_all decide) (by decide) (by decide)
